import Mathlib

/-!
Verification development for the AI Agent Execution Gateway of the meti-app
backend (`server/index.js`).  The definitions below are a shallow embedding of
the gateway code: `cleanInput`, the `AI_AGENTS` registry literal, and the body
of the `app.post('/api/ai/execute')` handler.  JavaScript runtime values that
can appear in a JSON request body are modelled by `JsVal` (with `JsVal.undefined` for JS
`undefined`); `JSON.parse` and `JSON.stringify` are modelled executably.

Modelling conventions:
* JS strings are modelled as Lean `String` (sequences of Unicode scalar
  values).  `slice(0, n)` is modelled as taking the first `n` characters; the
  UTF-16 surrogate-pair edge of `slice` is not modelled, and `\uXXXX` escapes
  denoting lone surrogates make the modelled `JSON.parse` fail instead of
  producing an unpaired surrogate (Lean `Char` cannot hold one).  No claim
  depends on these edges.
* JS numbers are modelled as a decimal pair `mantissa * 10 ^ exp10`; float
  rounding and JS float formatting are not modelled (no claim involves
  non-integer numerics).
* Property access `o.k` on JS values is `JsVal.getProp`, returning `none` exactly
  when JS would throw a `TypeError` (access on `undefined`/`null`).
* Bracket lookup `AI_AGENTS[agent]` in JS consults the prototype chain: for a
  key such as "constructor" or "toString" it yields an inherited (truthy)
  function rather than `undefined`.  `AI_AGENTS_lookup` models this with the
  `protoJunk` case.
-/

/-- JavaScript runtime values (the payloads reaching the gateway), including
`undefined`. Numbers are `mantissa * 10 ^ exp10`. -/
inductive JsVal where
  | undefined : JsVal
  | jnull : JsVal
  | jbool (b : Bool) : JsVal
  | jnum (mantissa : Int) (exp10 : Int) : JsVal
  | jstr (s : String) : JsVal
  | jarr (elems : List JsVal) : JsVal
  | jobj (fields : List (String × JsVal)) : JsVal

/-- JSON values as produced by `JSON.parse` (no `undefined`). -/
inductive Json where
  | null : Json
  | bool (b : Bool) : Json
  | num (mantissa : Int) (exp10 : Int) : Json
  | str (s : String) : Json
  | arr (elems : List Json) : Json
  | obj (fields : List (String × Json)) : Json

/-- JS property access `v.k`: `none` models the `TypeError` thrown when
accessing a property of `undefined` or `null`; on other non-objects the result
is `undefined`; on objects it is the field value or `undefined` when absent. -/
def JsVal.getProp : JsVal → String → Option JsVal
  | .undefined, _ => none
  | .jnull, _ => none
  | .jobj fields, k => some ((((fields.find? (fun p => p.1 = k))).map Prod.snd).getD .undefined)
  | _, _ => some .undefined

/-- The control characters removed by `cleanInput`'s regex
`/[\u0000-\u001F\u007F-\u009F]/g`. -/
def isJsControl (c : Char) : Bool :=
  c.val ≤ 0x1F || (0x7F ≤ c.val && c.val ≤ 0x9F)

/-- `server/index.js` line 150: `cleanInput`.  Non-strings map to the empty
string; strings have C0/C1 control characters removed and are then truncated
by `slice(0, 5000)`. -/
def cleanInput : JsVal → String
  | .jstr s => String.mk ((s.toList.filter (fun c => !isJsControl c)).take 5000)
  | _ => ""

/-- JS `a || b` on strings: the empty string is falsy. -/
def jsOrDefault (s fallback : String) : String :=
  if s = "" then fallback else s

/-- JSON insignificant whitespace, as accepted by `JSON.parse`. -/
def skipWs : List Char → List Char
  | [] => []
  | c :: rest =>
    if c = ' ' ∨ c = '\t' ∨ c = '\n' ∨ c = '\r' then skipWs rest else c :: rest

/-- Value of a hexadecimal digit character. -/
def hexDigitVal (c : Char) : Option Nat :=
  if '0' ≤ c ∧ c ≤ '9' then some (c.toNat - 48)
  else if 'a' ≤ c ∧ c ≤ 'f' then some (c.toNat - 87)
  else if 'A' ≤ c ∧ c ≤ 'F' then some (c.toNat - 55)
  else none

/-- Body of a JSON string literal (after the opening quote): returns the
decoded characters and the input remaining after the closing quote.  Raw
control characters and invalid escapes are rejected, as in `JSON.parse`. -/
def parseStringBody : List Char → Option (List Char × List Char)
  | [] => none
  | '"' :: rest => some ([], rest)
  | '\\' :: rest =>
    match rest with
    | '"' :: r => (parseStringBody r).map (fun p => ('"' :: p.1, p.2))
    | '\\' :: r => (parseStringBody r).map (fun p => ('\\' :: p.1, p.2))
    | '/' :: r => (parseStringBody r).map (fun p => ('/' :: p.1, p.2))
    | 'b' :: r => (parseStringBody r).map (fun p => (Char.ofNat 8 :: p.1, p.2))
    | 'f' :: r => (parseStringBody r).map (fun p => (Char.ofNat 12 :: p.1, p.2))
    | 'n' :: r => (parseStringBody r).map (fun p => ('\n' :: p.1, p.2))
    | 'r' :: r => (parseStringBody r).map (fun p => ('\r' :: p.1, p.2))
    | 't' :: r => (parseStringBody r).map (fun p => ('\t' :: p.1, p.2))
    | 'u' :: a :: b :: c :: d :: r =>
      match hexDigitVal a, hexDigitVal b, hexDigitVal c, hexDigitVal d with
      | some ha, some hb, some hc, some hd =>
        let code := ((ha * 16 + hb) * 16 + hc) * 16 + hd
        if 0xD800 ≤ code ∧ code < 0xE000 then none
        else (parseStringBody r).map (fun p => (Char.ofNat code :: p.1, p.2))
      | _, _, _, _ => none
    | _ => none
  | c :: rest =>
    if c.val < 0x20 then none
    else (parseStringBody rest).map (fun p => (c :: p.1, p.2))

/-- Longest prefix of decimal digits. -/
def takeDigits : List Char → List Char × List Char
  | [] => ([], [])
  | c :: rest =>
    if c.isDigit then
      let p := takeDigits rest
      (c :: p.1, p.2)
    else ([], c :: rest)

/-- Numeric value of a digit run. -/
def digitsToNat (ds : List Char) : Nat :=
  ds.foldl (fun acc c => acc * 10 + (c.toNat - 48)) 0

/-- Exponent part of a JSON number, after the `e`/`E`. -/
def parseExpTail (input : List Char) : Option (Int × List Char) :=
  let signed : Bool × List Char :=
    match input with
    | '+' :: r => (false, r)
    | '-' :: r => (true, r)
    | _ => (false, input)
  match takeDigits signed.2 with
  | ([], _) => none
  | (ds, rest) =>
    let e : Int := (digitsToNat ds : Int)
    some ((if signed.1 then -e else e), rest)

/-- A JSON number per the `JSON.parse` grammar (optional minus, integer part
without redundant leading zeros, optional fraction, optional exponent),
returned as `(mantissa, exp10)`. -/
def parseNumber (input : List Char) : Option ((Int × Int) × List Char) :=
  let signed : Bool × List Char :=
    match input with
    | '-' :: r => (true, r)
    | _ => (false, input)
  match takeDigits signed.2 with
  | ([], _) => none
  | (ds, rest1) =>
    if ds.length > 1 ∧ ds.headD '0' = '0' then none
    else
      let fracPart : Option (List Char × List Char) :=
        match rest1 with
        | '.' :: r2 =>
          match takeDigits r2 with
          | ([], _) => none
          | (fs, rest2) => some (fs, rest2)
        | _ => some ([], rest1)
      match fracPart with
      | none => none
      | some (fs, rest2) =>
        let expPart : Option (Int × List Char) :=
          match rest2 with
          | 'e' :: r3 => parseExpTail r3
          | 'E' :: r3 => parseExpTail r3
          | _ => some (0, rest2)
        match expPart with
        | none => none
        | some (ex, rest3) =>
          let mNat := digitsToNat (ds ++ fs)
          let m : Int := if signed.1 then -(mNat : Int) else (mNat : Int)
          some ((m, ex - (fs.length : Int)), rest3)

/-- One JSON value, fuel-bounded recursive descent.  Array and object tails
are parsed by re-entering with a synthetic opening bracket; a lookahead
rejects trailing commas, as `JSON.parse` does. -/
def parseVal : Nat → List Char → Option (Json × List Char)
  | 0, _ => none
  | fuel + 1, input =>
    match skipWs input with
    | 'n' :: 'u' :: 'l' :: 'l' :: r => some (.null, r)
    | 't' :: 'r' :: 'u' :: 'e' :: r => some (.bool true, r)
    | 'f' :: 'a' :: 'l' :: 's' :: 'e' :: r => some (.bool false, r)
    | '"' :: r => (parseStringBody r).map (fun p => (.str (String.mk p.1), p.2))
    | '[' :: r =>
      (match skipWs r with
       | ']' :: t => some (.arr [], t)
       | r2 =>
         match parseVal fuel r2 with
         | none => none
         | some (j, rest) =>
           match skipWs rest with
           | ']' :: t => some (.arr [j], t)
           | ',' :: rest2 =>
             (match skipWs rest2 with
              | ']' :: _ => none
              | _ =>
                match parseVal fuel ('[' :: rest2) with
                | some (.arr js, t) => some (.arr (j :: js), t)
                | _ => none)
           | _ => none)
    | '{' :: r =>
      (match skipWs r with
       | '}' :: t => some (.obj [], t)
       | '"' :: r2 =>
         (match parseStringBody r2 with
          | none => none
          | some (k, rest) =>
            match skipWs rest with
            | ':' :: rest2 =>
              (match parseVal fuel rest2 with
               | none => none
               | some (v, rest3) =>
                 match skipWs rest3 with
                 | '}' :: t => some (.obj [(String.mk k, v)], t)
                 | ',' :: rest4 =>
                   (match skipWs rest4 with
                    | '}' :: _ => none
                    | _ =>
                      match parseVal fuel ('{' :: rest4) with
                      | some (.obj fs, t) => some (.obj ((String.mk k, v) :: fs), t)
                      | _ => none)
                 | _ => none)
            | _ => none)
       | _ => none)
    | other => (parseNumber other).map (fun p => (.num p.1.1 p.1.2, p.2))

/-- `JSON.parse`: one value surrounded only by insignificant whitespace. -/
def parseJson (s : String) : Option Json :=
  match parseVal (2 * s.length + 2) s.toList with
  | some (j, rest) => if skipWs rest = [] then some j else none
  | none => none

/-- The replacement pass of `text.replace(/```json|```/g, '')`: at each
position the alternation prefers the longer match. -/
def stripFences : List Char → List Char
  | '`' :: '`' :: '`' :: 'j' :: 's' :: 'o' :: 'n' :: rest => stripFences rest
  | '`' :: '`' :: '`' :: rest => stripFences rest
  | c :: rest => c :: stripFences rest
  | [] => []

/-- String form of `stripFences`. -/
def stripFencesStr (s : String) : String :=
  String.mk (stripFences s.toList)

/-- Whitespace removed by JS `String.prototype.trim` (WhiteSpace and
LineTerminator code points). -/
def isJsTrimWs (c : Char) : Bool :=
  let n := c.val
  n = 0x9 || n = 0xA || n = 0xB || n = 0xC || n = 0xD || n = 0x20 || n = 0xA0 ||
  n = 0x1680 || (0x2000 ≤ n && n ≤ 0x200A) || n = 0x2028 || n = 0x2029 ||
  n = 0x202F || n = 0x205F || n = 0x3000 || n = 0xFEFF

/-- JS `trim()`. -/
def jsTrim (s : String) : String :=
  String.mk (((s.toList.dropWhile isJsTrimWs).reverse.dropWhile isJsTrimWs).reverse)

/-- Lowercase hex digit for `\u00XX` escapes. -/
def hexDigitChar (n : Nat) : Char :=
  if n < 10 then Char.ofNat (48 + n) else Char.ofNat (87 + n)

/-- `JSON.stringify` escaping of a single character: quote, backslash and
C0 controls are escaped; characters at or above U+007F (including the C1
controls) are emitted verbatim. -/
def escapeJsonChar (c : Char) : String :=
  if c = '"' then "\\\""
  else if c = '\\' then "\\\\"
  else if c = '\n' then "\\n"
  else if c = '\r' then "\\r"
  else if c = '\t' then "\\t"
  else if c.val = 8 then "\\b"
  else if c.val = 12 then "\\f"
  else if c.val < 0x20 then
    "\\u00" ++ String.mk [hexDigitChar (c.toNat / 16), hexDigitChar (c.toNat % 16)]
  else String.mk [c]

/-- `JSON.stringify` rendering of a string. -/
def escapeJsonString (s : String) : String :=
  "\"" ++ String.join (s.toList.map escapeJsonChar) ++ "\""

/-- Decimal rendering of a modelled number (JS float formatting such as
`7.2` for `(72, -1)` is not reproduced; no claim stringifies numbers). -/
def renderNum (m : Int) (e : Int) : String :=
  let base := toString m
  if e = 0 then base
  else if 0 < e then base ++ String.mk (List.replicate e.toNat '0')
  else base ++ "e" ++ toString e

/-- Comma-join for `JSON.stringify` composites. -/
def joinComma : List String → String
  | [] => ""
  | [s] => s
  | s :: rest => s ++ "," ++ joinComma rest

/-- Fuel-bounded `JSON.stringify`: `undefined` stringifies to nothing
(`none`); inside arrays it becomes `null`, inside objects the field is
dropped. -/
def stringifyFuel : Nat → JsVal → Option String
  | 0, _ => none
  | _, .undefined => none
  | _, .jnull => some "null"
  | _, .jbool true => some "true"
  | _, .jbool false => some "false"
  | _, .jnum m e => some (renderNum m e)
  | _, .jstr s => some (escapeJsonString s)
  | fuel + 1, .jarr xs =>
    some ("[" ++ joinComma (xs.map (fun x => (stringifyFuel fuel x).getD "null")) ++ "]")
  | fuel + 1, .jobj fs =>
    some ("\x7b" ++ joinComma (fs.filterMap (fun p =>
      (stringifyFuel fuel p.2).map (fun v => escapeJsonString p.1 ++ ":" ++ v))) ++ "\x7d")

/-- `JSON.stringify`.  The fuel bounds nesting depth only; the server parses
request bodies with `express.json({ limit: '2MB' })`, so any payload value has
nesting depth below 2 * 10 ^ 6, far under this fuel, and the zero-fuel case is
unreachable. -/
def jsonStringify (v : JsVal) : Option String :=
  stringifyFuel 1000000000 v

/-- Grounding tools that appear in the `AI_AGENTS` table. -/
inductive GTool where
  | googleMaps : GTool
  | googleSearch : GTool
deriving DecidableEq

/-- The `@google/genai` schema descriptors used in the `AI_AGENTS` table. -/
inductive GSchema where
  | string : GSchema
  | integer : GSchema
  | number : GSchema
  | array (items : GSchema) : GSchema
  | object (properties : List (String × GSchema)) : GSchema

/-- One entry of the `AI_AGENTS` configuration literal: a model selector, a
prompt-building closure (`none` models a thrown `TypeError`), an optional
response schema, and optional grounding tools. -/
structure AgentContract where
  model : String
  prompt : JsVal → Option String
  schema : Option GSchema
  tools : List GTool

/-- `AI_AGENTS.niche` (`server/index.js` line 246). -/
def nicheAgent : AgentContract :=
  { model := "gemini-2.5-flash"
    prompt := fun d => do
      let pn ← d.getProp "productName"
      let ds ← d.getProp "description"
      pure ("Analyze product: \"" ++ cleanInput pn ++ "\". Desc: " ++ cleanInput ds ++
        ". Identify 3 profitable niches. Return valid JSON.")
    schema := some (.array (.object [("name", .string), ("profitabilityScore", .integer),
      ("reasoning", .string), ("marketSizeEstimate", .string)]))
    tools := [] }

/-- `AI_AGENTS.persona` (line 251); `cleanInput(d.refinement) || 'None'`. -/
def personaAgent : AgentContract :=
  { model := "gemini-3-pro-preview"
    prompt := fun d => do
      let pn ← d.getProp "productName"
      let ni ← d.getProp "niche"
      let rf ← d.getProp "refinement"
      pure ("Build ICP for \"" ++ cleanInput pn ++ "\" in niche \"" ++ cleanInput ni ++
        "\". Refinement: " ++ jsOrDefault (cleanInput rf) "None" ++ ". Return JSON.")
    schema := some (.object [("jobTitle", .string), ("ageRange", .string),
      ("psychographics", .array .string), ("painPoints", .array .string),
      ("goals", .array .string), ("buyingTriggers", .array .string)])
    tools := [] }

/-- `AI_AGENTS.magnets` (line 256). -/
def magnetsAgent : AgentContract :=
  { model := "gemini-2.5-flash"
    prompt := fun d => do
      let pe ← d.getProp "persona"
      let pn ← d.getProp "productName"
      pure ("3 Lead magnet ideas for " ++ cleanInput pe ++ " related to " ++
        cleanInput pn ++ ". Return JSON.")
    schema := some (.array (.object [("title", .string), ("type", .string),
      ("hook", .string), ("description", .string)]))
    tools := [] }

/-- `AI_AGENTS.maps_scout` (line 261): grounding tools, no schema. -/
def mapsScoutAgent : AgentContract :=
  { model := "gemini-2.5-flash"
    prompt := fun d => do
      let ni ← d.getProp "niche"
      let lo ← d.getProp "location"
      pure ("Find 5 verified business leads for \"" ++ cleanInput ni ++ "\" in \"" ++
        cleanInput lo ++ "\".")
    schema := none
    tools := [.googleMaps] }

/-- `AI_AGENTS.social_search` (line 266); reads `d.persona.jobTitle`. -/
def socialSearchAgent : AgentContract :=
  { model := "gemini-2.5-flash"
    prompt := fun d => do
      let pe ← d.getProp "persona"
      let jt ← pe.getProp "jobTitle"
      let ni ← d.getProp "niche"
      pure ("Generate 3 Boolean Search Strings for " ++ cleanInput jt ++ " in " ++
        cleanInput ni ++ ". Return JSON.")
    schema := some (.array (.object [("platform", .string), ("query", .string),
      ("explanation", .string), ("directUrl", .string)]))
    tools := [] }

/-- `AI_AGENTS.landing_page` (line 271). -/
def landingPageAgent : AgentContract :=
  { model := "gemini-3-pro-preview"
    prompt := fun d => do
      let pn ← d.getProp "productName"
      let pe ← d.getProp "persona"
      let jt ← pe.getProp "jobTitle"
      pure ("Write landing page copy for " ++ cleanInput pn ++ ". Target: " ++
        cleanInput jt ++ ". Return JSON.")
    schema := some (.object [("headline", .string), ("subheadline", .string),
      ("ctaPrimary", .string), ("ctaSecondary", .string),
      ("benefits", .array (.object [("title", .string), ("description", .string)])),
      ("heroImagePrompt", .string),
      ("socialProof", .array (.object [("name", .string), ("quote", .string),
        ("role", .string)]))])
    tools := [] }

/-- `AI_AGENTS.ad_creatives` (line 276). -/
def adCreativesAgent : AgentContract :=
  { model := "gemini-2.5-flash"
    prompt := fun d => do
      let pn ← d.getProp "productName"
      pure ("Generate 3 ad creatives for " ++ cleanInput pn ++ ". Return JSON.")
    schema := some (.array (.object [("platform", .string), ("headline", .string),
      ("adCopy", .string), ("hashtags", .array .string), ("visualPrompt", .string)]))
    tools := [] }

/-- `AI_AGENTS.seo_audit` (line 281): grounding tools and a schema. -/
def seoAuditAgent : AgentContract :=
  { model := "gemini-2.5-flash"
    prompt := fun d => do
      let u ← d.getProp "url"
      pure ("Audit SEO for " ++ cleanInput u ++ ". Identify technical issues. Return JSON.")
    schema := some (.array (.object [("severity", .string), ("category", .string),
      ("issue", .string), ("recommendation", .string)]))
    tools := [.googleSearch] }

/-- `AI_AGENTS.seo_keywords` (line 287). -/
def seoKeywordsAgent : AgentContract :=
  { model := "gemini-2.5-flash"
    prompt := fun d => do
      let se ← d.getProp "seed"
      let ni ← d.getProp "niche"
      pure ("Keyword strategy for \"" ++ cleanInput se ++ "\" niche \"" ++
        cleanInput ni ++ "\". Return JSON.")
    schema := some (.array (.object [("keyword", .string), ("intent", .string),
      ("volume", .string), ("difficulty", .integer), ("opportunityScore", .integer)]))
    tools := [] }

/-- `AI_AGENTS.chat_reply` (line 292): the history is embedded via
`JSON.stringify(d.history)`, not via `cleanInput`. -/
def chatReplyAgent : AgentContract :=
  { model := "gemini-2.5-flash"
    prompt := fun d => do
      let pe ← d.getProp "persona"
      let jt ← pe.getProp "jobTitle"
      let pn ← d.getProp "productName"
      let hist ← d.getProp "history"
      pure ("Roleplay as " ++ cleanInput jt ++ ". Product: " ++ cleanInput pn ++
        ". History: " ++ (jsonStringify hist).getD "undefined" ++ ". Reply short.")
    schema := none
    tools := [] }

/-- `AI_AGENTS.follow_up` (line 296). -/
def followUpAgent : AgentContract :=
  { model := "gemini-2.5-flash"
    prompt := fun d => do
      let pn ← d.getProp "productName"
      pure ("3 email sequence for " ++ cleanInput pn ++ ". Return JSON.")
    schema := some (.array (.object [("subject", .string), ("previewText", .string),
      ("body", .string), ("sendDelay", .string)]))
    tools := [] }

/-- `AI_AGENTS.qualification` (line 301). -/
def qualificationAgent : AgentContract :=
  { model := "gemini-2.5-flash"
    prompt := fun d => do
      let pn ← d.getProp "productName"
      pure ("5 BANT questions for " ++ cleanInput pn ++ ". Return JSON.")
    schema := some (.array (.object [("question", .string), ("intent", .string),
      ("idealAnswer", .string)]))
    tools := [] }

/-- `AI_AGENTS.cold_dms` (line 306). -/
def coldDmsAgent : AgentContract :=
  { model := "gemini-2.5-flash"
    prompt := fun d => do
      let pe ← d.getProp "persona"
      let jt ← pe.getProp "jobTitle"
      pure ("3 cold DMs for " ++ cleanInput jt ++ ". Return JSON array of strings.")
    schema := some (.array .string)
    tools := [] }

/-- `AI_AGENTS.email_campaign` (line 311). -/
def emailCampaignAgent : AgentContract :=
  { model := "gemini-2.5-flash"
    prompt := fun d => do
      let tp ← d.getProp "topic"
      let gl ← d.getProp "goal"
      pure ("Write email body: \"" ++ cleanInput tp ++ "\" Goal: \"" ++ cleanInput gl ++
        "\". Return JSON.")
    schema := some (.object [("subject", .string), ("body", .string)])
    tools := [] }

/-- `AI_AGENTS.email_subjects` (line 316). -/
def emailSubjectsAgent : AgentContract :=
  { model := "gemini-2.5-flash"
    prompt := fun d => do
      let tp ← d.getProp "topic"
      pure ("5 subject lines for \"" ++ cleanInput tp ++ "\". Return JSON array strings.")
    schema := some (.array .string)
    tools := [] }

/-- `AI_AGENTS.objection_handler` (line 321). -/
def objectionHandlerAgent : AgentContract :=
  { model := "gemini-2.5-flash"
    prompt := fun d => do
      let ob ← d.getProp "objection"
      pure ("3 rebuttals for: \"" ++ cleanInput ob ++ "\". Return JSON array strings.")
    schema := some (.array .string)
    tools := [] }

/-- `AI_AGENTS.content_score` (line 326); `cleanInput(d.content).slice(0,2000)`. -/
def contentScoreAgent : AgentContract :=
  { model := "gemini-2.5-flash"
    prompt := fun d => do
      let kw ← d.getProp "keyword"
      let ct ← d.getProp "content"
      pure ("Analyze SEO content for \"" ++ cleanInput kw ++ "\": \"" ++
        String.mk ((cleanInput ct).toList.take 2000) ++ "\". Return JSON.")
    schema := some (.object [("score", .integer), ("readability", .string),
      ("keywordDensity", .number), ("suggestions", .array .string),
      ("missingKeywords", .array .string)])
    tools := [] }

/-- The own properties of the `AI_AGENTS` object literal (lines 245-331). -/
def AI_AGENTS (name : String) : Option AgentContract :=
  if name = "niche" then some nicheAgent
  else if name = "persona" then some personaAgent
  else if name = "magnets" then some magnetsAgent
  else if name = "maps_scout" then some mapsScoutAgent
  else if name = "social_search" then some socialSearchAgent
  else if name = "landing_page" then some landingPageAgent
  else if name = "ad_creatives" then some adCreativesAgent
  else if name = "seo_audit" then some seoAuditAgent
  else if name = "seo_keywords" then some seoKeywordsAgent
  else if name = "chat_reply" then some chatReplyAgent
  else if name = "follow_up" then some followUpAgent
  else if name = "qualification" then some qualificationAgent
  else if name = "cold_dms" then some coldDmsAgent
  else if name = "email_campaign" then some emailCampaignAgent
  else if name = "email_subjects" then some emailSubjectsAgent
  else if name = "objection_handler" then some objectionHandlerAgent
  else if name = "content_score" then some contentScoreAgent
  else none

/-- Result of the JS bracket lookup `AI_AGENTS[agent]`. -/
inductive JsLookup where
  | contract (c : AgentContract) : JsLookup
  | protoJunk : JsLookup
  | absent : JsLookup

/-- Enumerable own properties of `Object.prototype` (plus `__proto__`): keys
for which `AI_AGENTS[key]` yields an inherited truthy value even though the
literal does not declare them. -/
def objectProtoKeys : List String :=
  ["constructor", "hasOwnProperty", "isPrototypeOf", "propertyIsEnumerable",
   "toLocaleString", "toString", "valueOf", "__defineGetter__", "__defineSetter__",
   "__lookupGetter__", "__lookupSetter__", "__proto__"]

/-- `AI_AGENTS[agent]` with JavaScript property-lookup semantics: an own
property wins; otherwise keys inherited from `Object.prototype` produce a
truthy non-contract value (`protoJunk`); everything else is `undefined`. -/
def AI_AGENTS_lookup (name : String) : JsLookup :=
  match AI_AGENTS name with
  | some c => .contract c
  | none => if name ∈ objectProtoKeys then .protoJunk else .absent

/-- The authenticated caller's quota-relevant state (`User.usage.tokensUsed`
and `User.subscription`; the mongoose default for `subscription` is the
string "hobby", and the empty string models any falsy stored value). -/
structure Principal where
  tokensUsed : Nat
  subscription : String

/-- The quota table `{ hobby: 100000, pro: 1000000, agency: 5000000 }` at line
347, as a lookup.  A key outside the three tiers yields `undefined` in JS,
and `tokensUsed >= undefined` is false (NaN comparison); properties the
literal inherits from `Object.prototype` are functions, for which the `>=`
comparison is likewise false, so `none` models every unknown key. -/
def limits (tier : String) : Option Nat :=
  if tier = "hobby" then some 100000
  else if tier = "pro" then some 1000000
  else if tier = "agency" then some 5000000
  else none

/-- Line 348: `user.usage.tokensUsed >= limits[user.subscription || 'hobby']`. -/
def quotaBlocked (u : Principal) : Bool :=
  let tier := if u.subscription = "" then "hobby" else u.subscription
  match limits tier with
  | some ceiling => decide (ceiling ≤ u.tokensUsed)
  | none => false

/-- The parts of the `generateContent` result the handler consumes:
`result.text`, `result.usageMetadata?.totalTokenCount` (collapsed optional
chain) and `result.candidates?.[0]?.groundingMetadata?.groundingChunks`. -/
structure RawResponse where
  text : String
  usageTotalTokenCount : Option Nat
  groundingChunks : Option (List JsVal)

/-- Line 365: `result.usageMetadata?.totalTokenCount || 500` — the fallback
also fires on a reported count of `0`, since `0` is falsy. -/
def chargeAmount (r : RawResponse) : Nat :=
  match r.usageTotalTokenCount with
  | some n => if n = 0 then 500 else n
  | none => 500

/-- The `data` field of a success reply: raw text (no schema), a parsed JSON
value (schema), or the grounded shape `{ text, mapChunks }`. -/
inductive ApiData where
  | raw (text : String) : ApiData
  | parsed (value : Json) : ApiData
  | groundedData (text : String) (mapChunks : List JsVal) : ApiData

/-- The HTTP reply of the handler: 404 "Invalid agent", 402 "Quota exceeded",
the catch-all 500 "AI Processing Failed", or a 200 with data. -/
inductive ExecResult where
  | notFound : ExecResult
  | quotaExceeded : ExecResult
  | serverError : ExecResult
  | ok (d : ApiData) : ExecResult

/-- Observable outcome of one request: the reply, the single quota charge
issued against the principal store (`none` = `tokensUsed` unchanged), whether
the principal record was read, and whether the generative backend was
invoked. -/
structure ExecOutcome where
  response : ExecResult
  charged : Option Nat
  readLedger : Bool
  backendCalled : Bool

/-- The body of `app.post('/api/ai/execute')` (lines 338-392).  The registry
is a parameter because the handler reads the `AI_AGENTS` table as data while
its grounding branch tests the agent NAME (line 369); every instantiation in
this development uses the shipped `AI_AGENTS_lookup` except where that seam
itself is under scrutiny.  The backend call is an arbitrary
`Except Unit RawResponse` (error = thrown transport/backend failure).  For a
`protoJunk` lookup the handler proceeds: it reads the user, runs the quota
check, then throws a `TypeError` at `agentConfig.prompt(payload)` because the
inherited value has no `prompt` function, landing in the catch-all 500.  The
charge (`findByIdAndUpdate`, line 366) is issued after a successful backend
call and BEFORE grounding/JSON handling, so it also fires when JSON
normalization subsequently fails. -/
def executeRoute (registry : String → JsLookup) (agent : String) (payload : JsVal)
    (user : Principal) (backend : Except Unit RawResponse) : ExecOutcome :=
  match registry agent with
  | .absent =>
    { response := .notFound, charged := none, readLedger := false, backendCalled := false }
  | .protoJunk =>
    if quotaBlocked user then
      { response := .quotaExceeded, charged := none, readLedger := true,
        backendCalled := false }
    else
      { response := .serverError, charged := none, readLedger := true,
        backendCalled := false }
  | .contract c =>
    if quotaBlocked user then
      { response := .quotaExceeded, charged := none, readLedger := true,
        backendCalled := false }
    else
      match c.prompt payload with
      | none =>
        { response := .serverError, charged := none, readLedger := true,
          backendCalled := false }
      | some _ =>
        match backend with
        | .error _ =>
          { response := .serverError, charged := none, readLedger := true,
            backendCalled := true }
        | .ok r =>
          if agent = "maps_scout" ∨ agent = "seo_audit" then
            { response := .ok (.groundedData r.text (r.groundingChunks.getD []))
              charged := some (chargeAmount r), readLedger := true, backendCalled := true }
          else
            match c.schema with
            | some _ =>
              (match parseJson r.text with
               | some j =>
                 { response := .ok (.parsed j), charged := some (chargeAmount r),
                   readLedger := true, backendCalled := true }
               | none =>
                 match parseJson (jsTrim (stripFencesStr r.text)) with
                 | some j =>
                   { response := .ok (.parsed j), charged := some (chargeAmount r),
                     readLedger := true, backendCalled := true }
                 | none =>
                   { response := .serverError, charged := some (chargeAmount r),
                     readLedger := true, backendCalled := true })
            | none =>
              { response := .ok (.raw r.text), charged := some (chargeAmount r),
                readLedger := true, backendCalled := true }

/-- Restatement of the post-resolution tail of `executeRoute`, isolating the
only use the handler makes of the agent name after resolution: the Boolean of
the line-369 test `agent === 'maps_scout' || agent === 'seo_audit'`. -/
def routeAfterResolve (c : AgentContract) (groundedName : Bool) (payload : JsVal)
    (user : Principal) (backend : Except Unit RawResponse) : ExecOutcome :=
  if quotaBlocked user then
    { response := .quotaExceeded, charged := none, readLedger := true,
      backendCalled := false }
  else
    match c.prompt payload with
    | none =>
      { response := .serverError, charged := none, readLedger := true,
        backendCalled := false }
    | some _ =>
      match backend with
      | .error _ =>
        { response := .serverError, charged := none, readLedger := true,
          backendCalled := true }
      | .ok r =>
        if groundedName then
          { response := .ok (.groundedData r.text (r.groundingChunks.getD []))
            charged := some (chargeAmount r), readLedger := true, backendCalled := true }
        else
          match c.schema with
          | some _ =>
            (match parseJson r.text with
             | some j =>
               { response := .ok (.parsed j), charged := some (chargeAmount r),
                 readLedger := true, backendCalled := true }
             | none =>
               match parseJson (jsTrim (stripFencesStr r.text)) with
               | some j =>
                 { response := .ok (.parsed j), charged := some (chargeAmount r),
                   readLedger := true, backendCalled := true }
               | none =>
                 { response := .serverError, charged := some (chargeAmount r),
                   readLedger := true, backendCalled := true })
          | none =>
            { response := .ok (.raw r.text), charged := some (chargeAmount r),
              readLedger := true, backendCalled := true }

/-- A benign payload for concrete runs. -/
def samplePayload : JsVal :=
  .jobj [("productName", .jstr "Widget"), ("description", .jstr "A gadget")]

/-- A hobby-tier principal far under quota. -/
def underUser : Principal := { tokensUsed := 0, subscription := "hobby" }

/-- A hobby-tier principal exactly at the 100000 ceiling. -/
def overHobbyUser : Principal := { tokensUsed := 100000, subscription := "hobby" }

/-- A principal whose stored subscription is a non-empty string that is not one
of the three known tiers, with an enormous usage counter. -/
def enterpriseUser : Principal := { tokensUsed := 123456789, subscription := "enterprise" }

/-- A backend response with the given text, a reported cost of 123 tokens and
no grounding metadata. -/
def sampleResp (t : String) : RawResponse :=
  { text := t, usageTotalTokenCount := some 123, groundingChunks := none }

/-- A chat_reply payload whose history text contains U+007F (DEL), a character
inside the C1 range that `cleanInput` strips. -/
def badHistoryPayload : JsVal :=
  .jobj [("persona", .jobj [("jobTitle", .jstr "CTO")]),
         ("productName", .jstr "Widget"),
         ("history", .jarr [.jobj [("role", .jstr "user"),
                                   ("text", .jstr (String.mk ['h', 'i', Char.ofNat 0x7F]))]])]

/-- A content_score payload. -/
def scorePayload : JsVal := .jobj [("keyword", .jstr "seo"), ("content", .jstr "text")]

/-- The fenced raw response of the JSON-fallback scenario. -/
def fencedScoreText : String := "```json\n\x7b\"score\": 72\x7d\n```"

/-- The shipped lookup extended with a second name bound to the very same
contract value as maps_scout; the handler body itself is unchanged.  This is
the data-table edit the specification calls a pure extension seam. -/
def reg2 : String → JsLookup :=
  fun n => if n = "maps_scout2" then AI_AGENTS_lookup "maps_scout" else AI_AGENTS_lookup n

theorem lookup_contract_of (n : String) (c : AgentContract)
    (h : AI_AGENTS_lookup n = .contract c) : AI_AGENTS n = some c := by
  unfold AI_AGENTS_lookup at h
  cases h' : AI_AGENTS n with
  | some c2 => rw [h'] at h; injection h with h; rw [h]
  | none => rw [h'] at h; split_ifs at h

theorem AI_AGENTS_grounded_iff (n : String) (c : AgentContract)
    (h : AI_AGENTS n = some c) :
    (n = "maps_scout" ∨ n = "seo_audit") ↔ c.tools ≠ [] := by
  unfold AI_AGENTS at h
  by_cases h1 : n = "niche"
  · subst h1; have hsome : some nicheAgent = some c := h; injection hsome with hc; subst hc; decide
  rw [if_neg h1] at h
  by_cases h2 : n = "persona"
  · subst h2; have hsome : some personaAgent = some c := h; injection hsome with hc; subst hc; decide
  rw [if_neg h2] at h
  by_cases h3 : n = "magnets"
  · subst h3; have hsome : some magnetsAgent = some c := h; injection hsome with hc; subst hc; decide
  rw [if_neg h3] at h
  by_cases h4 : n = "maps_scout"
  · subst h4; have hsome : some mapsScoutAgent = some c := h; injection hsome with hc; subst hc; decide
  rw [if_neg h4] at h
  by_cases h5 : n = "social_search"
  · subst h5; have hsome : some socialSearchAgent = some c := h; injection hsome with hc; subst hc; decide
  rw [if_neg h5] at h
  by_cases h6 : n = "landing_page"
  · subst h6; have hsome : some landingPageAgent = some c := h; injection hsome with hc; subst hc; decide
  rw [if_neg h6] at h
  by_cases h7 : n = "ad_creatives"
  · subst h7; have hsome : some adCreativesAgent = some c := h; injection hsome with hc; subst hc; decide
  rw [if_neg h7] at h
  by_cases h8 : n = "seo_audit"
  · subst h8; have hsome : some seoAuditAgent = some c := h; injection hsome with hc; subst hc; decide
  rw [if_neg h8] at h
  by_cases h9 : n = "seo_keywords"
  · subst h9; have hsome : some seoKeywordsAgent = some c := h; injection hsome with hc; subst hc; decide
  rw [if_neg h9] at h
  by_cases h10 : n = "chat_reply"
  · subst h10; have hsome : some chatReplyAgent = some c := h; injection hsome with hc; subst hc; decide
  rw [if_neg h10] at h
  by_cases h11 : n = "follow_up"
  · subst h11; have hsome : some followUpAgent = some c := h; injection hsome with hc; subst hc; decide
  rw [if_neg h11] at h
  by_cases h12 : n = "qualification"
  · subst h12; have hsome : some qualificationAgent = some c := h; injection hsome with hc; subst hc; decide
  rw [if_neg h12] at h
  by_cases h13 : n = "cold_dms"
  · subst h13; have hsome : some coldDmsAgent = some c := h; injection hsome with hc; subst hc; decide
  rw [if_neg h13] at h
  by_cases h14 : n = "email_campaign"
  · subst h14; have hsome : some emailCampaignAgent = some c := h; injection hsome with hc; subst hc; decide
  rw [if_neg h14] at h
  by_cases h15 : n = "email_subjects"
  · subst h15; have hsome : some emailSubjectsAgent = some c := h; injection hsome with hc; subst hc; decide
  rw [if_neg h15] at h
  by_cases h16 : n = "objection_handler"
  · subst h16; have hsome : some objectionHandlerAgent = some c := h; injection hsome with hc; subst hc; decide
  rw [if_neg h16] at h
  by_cases h17 : n = "content_score"
  · subst h17; have hsome : some contentScoreAgent = some c := h; injection hsome with hc; subst hc; decide
  rw [if_neg h17] at h
  cases h

theorem executeRoute_contract_eq (registry : String → JsLookup) (agent : String)
    (payload : JsVal) (user : Principal) (backend : Except Unit RawResponse)
    (c : AgentContract) (h : registry agent = .contract c) :
    executeRoute registry agent payload user backend =
      routeAfterResolve c (decide (agent = "maps_scout" ∨ agent = "seo_audit"))
        payload user backend := by
  unfold executeRoute routeAfterResolve
  rw [h]
  by_cases hg : agent = "maps_scout" ∨ agent = "seo_audit" <;> simp [hg]

/-- C1: whenever the gateway answers a request successfully, the shape of the
returned data matches what the resolved contract declares: grounding tools
force the grounded shape (text plus chunk list), a schema without grounding
tools forces a parsed JSON value, and a contract with neither yields the raw
response text verbatim — never a mix of shapes. -/
theorem C1_result_shape_matches_contract (agent : String) (payload : JsVal)
    (user : Principal) (backend : Except Unit RawResponse) (c : AgentContract)
    (d : ApiData) (hc : AI_AGENTS_lookup agent = .contract c)
    (hok : (executeRoute AI_AGENTS_lookup agent payload user backend).response = .ok d) :
    (c.tools ≠ [] → ∃ t chunks, d = .groundedData t chunks) ∧
    (c.tools = [] → c.schema.isSome → ∃ j, d = .parsed j) ∧
    (c.tools = [] → c.schema = none → ∃ r, backend = .ok r ∧ d = .raw r.text) := by
  have hiff := AI_AGENTS_grounded_iff agent c (lookup_contract_of agent c hc)
  rw [executeRoute_contract_eq AI_AGENTS_lookup agent payload user backend c hc] at hok
  unfold routeAfterResolve at hok
  repeat' split at hok
  all_goals simp at hok
  · have htools := hiff.mp (of_decide_eq_true (by assumption))
    exact ⟨fun _ => ⟨_, _, hok.symm⟩, fun h0 _ => absurd h0 htools,
      fun h0 _ => absurd h0 htools⟩
  · have hgn : ¬(agent = "maps_scout" ∨ agent = "seo_audit") :=
      fun hg => absurd (decide_eq_true hg) (by assumption)
    exact ⟨fun ht => absurd (hiff.mpr ht) hgn, fun _ _ => ⟨_, hok.symm⟩,
      fun _ hs0 => by simp_all⟩
  · have hgn : ¬(agent = "maps_scout" ∨ agent = "seo_audit") :=
      fun hg => absurd (decide_eq_true hg) (by assumption)
    exact ⟨fun ht => absurd (hiff.mpr ht) hgn, fun _ _ => ⟨_, hok.symm⟩,
      fun _ hs0 => by simp_all⟩
  · have hgn : ¬(agent = "maps_scout" ∨ agent = "seo_audit") :=
      fun hg => absurd (decide_eq_true hg) (by assumption)
    exact ⟨fun ht => absurd (hiff.mpr ht) hgn, fun _ hs => by simp_all,
      fun _ _ => ⟨_, rfl, hok.symm⟩⟩

/-- Witness for C1: a concrete successful run of the schema-bearing niche
agent produces a parsed JSON value, as C1 demands. -/
theorem C1_result_shape_matches_contract_witness :
    (executeRoute AI_AGENTS_lookup "niche" samplePayload underUser
        (.ok (sampleResp "[]"))).response = .ok (.parsed (.arr [])) ∧
    ∃ j, ApiData.parsed (.arr []) = ApiData.parsed j :=
  ⟨rfl, (C1_result_shape_matches_contract "niche" samplePayload underUser
      (.ok (sampleResp "[]")) nicheAgent (.parsed (.arr [])) rfl rfl).2.1 rfl rfl⟩

/-- C2 counterexample: a response that fails JSON normalization is still
charged.  The niche agent has a schema; the backend succeeds with the
unparseable text "oops" and reports a cost of 123; the handler replies with
the catch-all server error, yet the quota charge of 123 was already issued
(the `findByIdAndUpdate` at line 366 runs before the `JSON.parse` at line
380). -/
theorem C2_normalization_failure_still_charged :
    executeRoute AI_AGENTS_lookup "niche" samplePayload underUser
      (.ok { text := "oops", usageTotalTokenCount := some 123, groundingChunks := none }) =
    { response := .serverError, charged := some 123, readLedger := true,
      backendCalled := true } := rfl

/-- C2 (amended): the gateway charges exactly once per successful backend
invocation — by the backend-reported cost, with the fixed 500-unit fallback
when no cost (or a zero cost) is reported — and charges nothing when the
backend call fails or is never reached; a response failing normalization is
nevertheless charged, since charging precedes normalization. -/
theorem C2_charge_per_successful_invocation (agent : String) (payload : JsVal)
    (user : Principal) (backend : Except Unit RawResponse) :
    ((executeRoute AI_AGENTS_lookup agent payload user backend).backendCalled = false →
      (executeRoute AI_AGENTS_lookup agent payload user backend).charged = none) ∧
    (backend = .error () →
      (executeRoute AI_AGENTS_lookup agent payload user backend).charged = none) ∧
    (∀ r, backend = .ok r →
      (executeRoute AI_AGENTS_lookup agent payload user backend).backendCalled = true →
      (executeRoute AI_AGENTS_lookup agent payload user backend).charged =
        some (chargeAmount r)) := by
  unfold executeRoute
  repeat' split
  all_goals refine ⟨fun h1 => ?_, fun h2 => ?_, fun r hr hb => ?_⟩
  all_goals simp_all

/-- Witness for C2 (amended): a successful invocation whose backend reports no
cost is charged exactly the 500-unit fallback. -/
theorem C2_charge_per_successful_invocation_witness :
    (executeRoute AI_AGENTS_lookup "niche" samplePayload underUser
       (.ok { text := "[]", usageTotalTokenCount := none, groundingChunks := none })).charged =
      some 500 :=
  (C2_charge_per_successful_invocation "niche" samplePayload underUser
      (.ok { text := "[]", usageTotalTokenCount := none, groundingChunks := none })).2.2
    { text := "[]", usageTotalTokenCount := none, groundingChunks := none } rfl rfl

/-- C3: a principal on one of the three known tiers whose usage has reached
the tier ceiling receives the quota-exceeded reply for every resolvable
agent; no backend call happens and no charge is issued (`tokensUsed` is
unchanged). -/
theorem C3_quota_ceiling_blocks (agent : String) (payload : JsVal)
    (user : Principal) (backend : Except Unit RawResponse) (c : AgentContract)
    (ceiling : Nat) (hc : AI_AGENTS_lookup agent = .contract c)
    (hl : limits user.subscription = some ceiling)
    (hge : ceiling ≤ user.tokensUsed) :
    executeRoute AI_AGENTS_lookup agent payload user backend =
      { response := .quotaExceeded, charged := none, readLedger := true,
        backendCalled := false } := by
  have hne : user.subscription ≠ "" := by
    intro h0
    rw [h0] at hl
    simp [limits] at hl
  have hq : quotaBlocked user = true := by
    simp only [quotaBlocked, if_neg hne, hl]
    simpa using hge
  unfold executeRoute
  rw [hc, hq]
  simp

/-- Witness for C3: a hobby principal at exactly 100000 tokens is rejected for
the persona agent with no charge and no backend call. -/
theorem C3_quota_ceiling_blocks_witness :
    executeRoute AI_AGENTS_lookup "persona" samplePayload overHobbyUser
      (.ok (sampleResp "x")) =
    { response := .quotaExceeded, charged := none, readLedger := true,
      backendCalled := false } :=
  C3_quota_ceiling_blocks "persona" samplePayload overHobbyUser (.ok (sampleResp "x"))
    personaAgent 100000 rfl rfl (Nat.le_refl 100000)

/-- C4 (code bug): the name "does_not_exist" is answered with the not-found
reply without touching the principal record, as the claim states; but the
name "constructor" — also absent from the registry table — slips past the
`!agentConfig` check because `AI_AGENTS['constructor']` is the truthy
inherited `Object` constructor: the handler reads the principal record, runs
the quota check, then crashes at `agentConfig.prompt(payload)` into the
catch-all 500, contradicting "returns the not-found error kind ... without
reading or updating the quota ledger". -/
theorem C4_prototype_key_bypasses_not_found :
    executeRoute AI_AGENTS_lookup "does_not_exist" samplePayload underUser
        (.ok (sampleResp "x")) =
      { response := .notFound, charged := none, readLedger := false,
        backendCalled := false } ∧
    executeRoute AI_AGENTS_lookup "constructor" samplePayload underUser
        (.ok (sampleResp "x")) =
      { response := .serverError, charged := none, readLedger := true,
        backendCalled := false } ∧
    ExecResult.serverError ≠ ExecResult.notFound :=
  ⟨rfl, rfl, fun h => ExecResult.noConfusion h⟩

/-- C5 (code bug): the chat_reply prompt builder embeds the chat history via
`JSON.stringify(d.history)` without `cleanInput`.  For a history message whose
text contains U+007F, the built prompt contains U+007F verbatim — a character
`isJsControl` classifies as control and that `cleanInput` would have removed —
so nested history strings are not sanitized before entering the prompt. -/
theorem C5_chat_history_unsanitized :
    (chatReplyAgent.prompt badHistoryPayload).map
        (fun s => s.toList.contains (Char.ofNat 0x7F)) = some true ∧
    isJsControl (Char.ofNat 0x7F) = true ∧
    (cleanInput (.jstr (String.mk ['h', 'i', Char.ofNat 0x7F]))).toList.contains
        (Char.ofNat 0x7F) = false :=
  ⟨rfl, rfl, rfl⟩

/-- C6: for a resolvable contract with an output schema and no grounding
tools, normalization first attempts a strict JSON parse of the response text;
on failure it applies exactly one fallback — strip fenced-code markers, trim,
parse again — and on a second failure it answers with the error reply,
coercing nothing.  In particular the fenced raw response containing
score 72 normalizes to the parsed object with score 72. -/
theorem C6_json_two_tier_parse (agent : String) (payload : JsVal) (user : Principal)
    (c : AgentContract) (r : RawResponse) (p : String) (s : GSchema)
    (hc : AI_AGENTS_lookup agent = .contract c)
    (hs : c.schema = some s) (ht : c.tools = [])
    (hq : quotaBlocked user = false)
    (hp : c.prompt payload = some p) :
    ((executeRoute AI_AGENTS_lookup agent payload user (.ok r)).response =
      (match parseJson r.text with
       | some j => .ok (.parsed j)
       | none =>
         match parseJson (jsTrim (stripFencesStr r.text)) with
         | some j => .ok (.parsed j)
         | none => .serverError)) ∧
    (executeRoute AI_AGENTS_lookup "content_score" scorePayload underUser
        (.ok { text := fencedScoreText, usageTotalTokenCount := some 10,
               groundingChunks := none })).response =
      .ok (.parsed (.obj [("score", .num 72 0)])) := by
  constructor
  · have hiff := AI_AGENTS_grounded_iff agent c (lookup_contract_of agent c hc)
    have hgn : decide (agent = "maps_scout" ∨ agent = "seo_audit") = false :=
      decide_eq_false (fun hg => (hiff.mp hg) ht)
    rw [executeRoute_contract_eq AI_AGENTS_lookup agent payload user (.ok r) c hc]
    unfold routeAfterResolve
    rw [hq, hgn, hp, hs]
    cases hpt : parseJson r.text with
    | some j => simp [hpt]
    | none =>
      cases hpt2 : parseJson (jsTrim (stripFencesStr r.text)) with
      | some j => simp [hpt, hpt2]
      | none => simp [hpt, hpt2]
  · rfl

/-- Witness for C6: a schema-bearing agent whose backend text defeats both
parse attempts yields the error reply. -/
theorem C6_json_two_tier_parse_witness :
    (executeRoute AI_AGENTS_lookup "content_score" scorePayload underUser
       (.ok (sampleResp "oops"))).response = .serverError :=
  ((C6_json_two_tier_parse "content_score" scorePayload underUser contentScoreAgent
      (sampleResp "oops")
      "Analyze SEO content for \"seo\": \"text\". Return JSON."
      (.object [("score", .integer), ("readability", .string),
        ("keywordDensity", .number), ("suggestions", .array .string),
        ("missingKeywords", .array .string)])
      rfl rfl rfl rfl rfl).1).trans rfl

/-- C7 counterexample: the handler special-cases the literal agent names
maps_scout and seo_audit (line 369) instead of consulting the resolved
contract's grounding tools.  Binding a second name to the very same contract
value as maps_scout — a pure data-table edit — produces a grounded reply
under one name and a raw-text reply under the other for an identical payload,
principal and backend response, refuting "two agent names mapped to identical
contracts produce identical behaviour". -/
theorem C7_name_special_case_counterexample :
    reg2 "maps_scout" = reg2 "maps_scout2" ∧
    (executeRoute reg2 "maps_scout" samplePayload underUser
        (.ok (sampleResp "T"))).response = .ok (.groundedData "T" []) ∧
    (executeRoute reg2 "maps_scout2" samplePayload underUser
        (.ok (sampleResp "T"))).response = .ok (.raw "T") ∧
    ApiData.groundedData "T" [] ≠ ApiData.raw "T" :=
  ⟨rfl, rfl, rfl, fun h => ApiData.noConfusion h⟩

/-- C7 (amended): with the table as shipped — where maps_scout and seo_audit
are exactly the tools-bearing entries — the name test coincides with a test
of the resolved contract, so two names the shipped registry maps to the same
lookup result do behave identically; the generic seam itself fails only for
extended tables (see the counterexample). -/
theorem C7_shipped_table_contract_determines_behaviour (n1 n2 : String)
    (payload : JsVal) (user : Principal) (backend : Except Unit RawResponse)
    (h : AI_AGENTS_lookup n1 = AI_AGENTS_lookup n2) :
    executeRoute AI_AGENTS_lookup n1 payload user backend =
      executeRoute AI_AGENTS_lookup n2 payload user backend := by
  cases hl1 : AI_AGENTS_lookup n1 with
  | contract c =>
    rw [hl1] at h
    have hl2 : AI_AGENTS_lookup n2 = .contract c := h.symm
    rw [executeRoute_contract_eq AI_AGENTS_lookup n1 payload user backend c hl1,
        executeRoute_contract_eq AI_AGENTS_lookup n2 payload user backend c hl2]
    have e1 := AI_AGENTS_grounded_iff n1 c (lookup_contract_of n1 c hl1)
    have e2 := AI_AGENTS_grounded_iff n2 c (lookup_contract_of n2 c hl2)
    rw [decide_eq_decide.mpr (e1.trans e2.symm)]
  | protoJunk =>
    rw [hl1] at h
    unfold executeRoute
    rw [hl1, ← h]
  | absent =>
    rw [hl1] at h
    unfold executeRoute
    rw [hl1, ← h]

/-- Witness for C7 (amended): two unknown names with equal lookup results get
identical outcomes. -/
theorem C7_shipped_table_witness :
    executeRoute AI_AGENTS_lookup "agent_a" samplePayload underUser
        (.ok (sampleResp "x")) =
      executeRoute AI_AGENTS_lookup "agent_b" samplePayload underUser
        (.ok (sampleResp "x")) :=
  C7_shipped_table_contract_determines_behaviour "agent_a" "agent_b" samplePayload
    underUser (.ok (sampleResp "x")) rfl

theorem toList_mk (l : List Char) : (String.mk l).toList = l := rfl

/-- C8: `cleanInput` returns the empty string on every non-string input (it
never raises); on strings it removes exactly characters from
U+0000-U+001F and U+007F-U+009F (the output is control-free and a sublist of
the input) and truncates to at most 5000 characters, so every output has
length at most 5000. -/
theorem C8_cleanInput_spec :
    (∀ v : JsVal, (∀ s, v ≠ .jstr s) → cleanInput v = "") ∧
    (∀ v : JsVal, ∀ ch ∈ (cleanInput v).toList, isJsControl ch = false) ∧
    (∀ s : String, (cleanInput (.jstr s)).toList.Sublist s.toList) ∧
    (∀ v : JsVal, (cleanInput v).length ≤ 5000) := by
  refine ⟨?_, ?_, ?_, ?_⟩
  · intro v hv
    cases v <;> first | rfl | exact absurd rfl (hv _)
  · intro v ch hch
    cases v
    case jstr s =>
      have hm : ch ∈ s.toList.filter (fun c => !isJsControl c) :=
        List.mem_of_mem_take hch
      have hp := List.of_mem_filter hm
      simpa using hp
    all_goals exact absurd hch (List.not_mem_nil _)
  · intro s
    exact (List.take_sublist _ _).trans (List.filter_sublist _)
  · intro v
    cases v
    case jstr s => exact List.length_take_le _ _
    all_goals exact Nat.zero_le _

/-- Witness for C8: a number input maps to the empty string, and a string
input obeys the length bound. -/
theorem C8_cleanInput_spec_witness :
    cleanInput (.jnum 7 0) = "" ∧ (cleanInput (.jstr "abc")).length ≤ 5000 :=
  ⟨C8_cleanInput_spec.1 (.jnum 7 0) (fun _ h => JsVal.noConfusion h),
   C8_cleanInput_spec.2.2.2 (.jstr "abc")⟩

/-- C9: the sanitizer is idempotent — cleaning an already-cleaned string
changes nothing. -/
theorem C9_cleanInput_idempotent (s : String) :
    cleanInput (.jstr (cleanInput (.jstr s))) = cleanInput (.jstr s) := by
  simp only [cleanInput, toList_mk]
  have hall : ∀ a ∈ (s.toList.filter (fun c => !isJsControl c)).take 5000,
      (fun c => !isJsControl c) a = true := by
    intro a ha
    have hm : a ∈ s.toList.filter (fun c => !isJsControl c) := List.mem_of_mem_take ha
    exact (List.mem_filter.mp hm).2
  have hf := List.filter_eq_self.mpr hall
  rw [hf, List.take_take, Nat.min_self]

/-- C10: a principal whose stored subscription is a non-empty string outside
the three known tiers is never rejected for quota, no matter how large
`tokensUsed` is: the ceiling lookup yields `undefined` and the `>=`
comparison is false, so such a principal's usage is effectively unlimited. -/
theorem C10_unknown_tier_unlimited (agent : String) (payload : JsVal)
    (user : Principal) (backend : Except Unit RawResponse)
    (hne : user.subscription ≠ "") (hh : user.subscription ≠ "hobby")
    (hp : user.subscription ≠ "pro") (ha : user.subscription ≠ "agency") :
    (executeRoute AI_AGENTS_lookup agent payload user backend).response ≠
      .quotaExceeded := by
  have hq : quotaBlocked user = false := by
    simp only [quotaBlocked, if_neg hne, limits, if_neg hh, if_neg hp, if_neg ha]
  unfold executeRoute
  repeat' split
  all_goals simp_all

/-- Witness for C10: a principal on the unknown tier "enterprise" with a huge
usage counter is still served. -/
theorem C10_unknown_tier_unlimited_witness :
    (executeRoute AI_AGENTS_lookup "niche" samplePayload enterpriseUser
       (.ok (sampleResp "[]"))).response ≠ .quotaExceeded :=
  C10_unknown_tier_unlimited "niche" samplePayload enterpriseUser (.ok (sampleResp "[]"))
    (by decide) (by decide) (by decide) (by decide)
